import Mathlib

/-!
Shallow embedding of the Simple_Game_Engine repository (src/main.cpp).

Coordinates, sizes and timers are modelled as rationals (the C++ code uses
IEEE floats only as a carrier for exact small constants here; no claim in
scope depends on rounding).  Lives are modelled as integers, matching the
C++ `int m_lives`.  Rendering, audio playback, the random number generator
and the keyboard are external collaborators: their outputs (frame delta
time, movement displacement, spawn positions and sizes, pressed keys) enter
the model as explicit per-frame inputs, and the hit-feedback side effect
(`m_hitSound->play()`) is surfaced as the Bool component returned by
`Player.handleCollision`.
-/

/-- An axis-aligned rectangle: position of the top-left corner and size,
as in `sf::RectangleShape` (position plus size, i.e. a `sf::FloatRect`). -/
structure Rect where
  x : ℚ
  y : ℚ
  w : ℚ
  h : ℚ
  deriving DecidableEq

/-- `sf::FloatRect::findIntersection`: the overlap region of two
axis-aligned rectangles, or `none` when the interiors are disjoint
(zero-area contact along an edge or corner yields `none`, because the
comparisons are strict). -/
def findIntersection (a b : Rect) : Option Rect :=
  let il := max a.x b.x
  let it := max a.y b.y
  let ir := min (a.x + a.w) (b.x + b.w)
  let ib := min (a.y + a.h) (b.y + b.h)
  if il < ir ∧ it < ib then some ⟨il, it, ir - il, ib - it⟩ else none

/-- A point strictly inside a rectangle (in its interior). -/
def Rect.interiorPt (r : Rect) (q : ℚ × ℚ) : Prop :=
  r.x < q.1 ∧ q.1 < r.x + r.w ∧ r.y < q.2 ∧ q.2 < r.y + r.h

/-- Two rectangles share a region of strictly positive area exactly when
some point lies in the interior of both. -/
def sharesPosArea (a b : Rect) : Prop :=
  ∃ q : ℚ × ℚ, a.interiorPt q ∧ b.interiorPt q

/-- `Player` (src/main.cpp lines 166-323): shape, speed, lives, alive flag
and invincibility timer.  `m_speed` is kept for data-model fidelity; the
keyboard-driven movement that consumes it is an external input (see
`Player.update`). -/
structure Player where
  shape : Rect
  speed : ℚ
  lives : ℤ
  isAlive : Bool
  invincibleTimer : ℚ
  deriving DecidableEq

/-- `Player::INVINCIBLE_DURATION = 1.5f`. -/
def INVINCIBLE_DURATION : ℚ := 3 / 2

/-- The `Player` constructor: given size and position it starts with
`m_lives = 0`, `m_isAlive = true`, `m_invincibleTimer = 0`. -/
def Player.create (size pos : ℚ × ℚ) : Player :=
  { shape := ⟨pos.1, pos.2, size.1, size.2⟩
    speed := 350
    lives := 0
    isAlive := true
    invincibleTimer := 0 }

/-- `Player::getLives`. -/
def Player.getLives (p : Player) : ℤ := p.lives

/-- `Player::addLife`: increment lives by one, nothing else. -/
def Player.addLife (p : Player) : Player := { p with lives := p.lives + 1 }

/-- `Player::update(dt)`: returns unchanged when dead; otherwise counts the
invincibility timer down by `dt` when it is positive, and moves the shape.
The keyboard sampling and normalisation `(dir / len) * m_speed * dt` happen
in the external input collaborator, so the resulting displacement is taken
here as the argument `mv` (the no-key frame is `mv = (0, 0)`); the
alpha-blink written to the fill colour is pure rendering state and is not
part of the model. -/
def Player.update (p : Player) (dt : ℚ) (mv : ℚ × ℚ) : Player :=
  if p.isAlive = false then p
  else
    let p1 := if 0 < p.invincibleTimer
      then { p with invincibleTimer := p.invincibleTimer - dt }
      else p
    { p1 with shape := { p1.shape with x := p1.shape.x + mv.1, y := p1.shape.y + mv.2 } }

/-- The push-out block at the end of `Player::handleCollision` (lines
274-287): move along the axis of minimum overlap, the direction chosen by
comparing the top-left positions of player and wall. -/
def applyPush (p : Player) (inter wall : Rect) : Player :=
  if inter.w < inter.h then
    { p with shape :=
      { p.shape with x := p.shape.x + (if p.shape.x < wall.x then -inter.w else inter.w) } }
  else
    { p with shape :=
      { p.shape with y := p.shape.y + (if p.shape.y < wall.y then -inter.h else inter.h) } }

/-- `Player::handleCollision(wall)` (lines 250-288).  When the shapes
overlap and the player is not invincible: play the hit sound (the returned
Bool, true exactly on that branch), decrement lives, start the
invincibility timer, and clamp lives to 0 and clear the alive flag when
they dropped to 0 or below.  Regardless of invincibility, push the player
out along the axis of minimum overlap (`applyPush`). -/
def Player.handleCollision (p : Player) (wall : Rect) : Player × Bool :=
  match findIntersection p.shape wall with
  | none => (p, false)
  | some inter =>
    if p.invincibleTimer ≤ 0 then
      if p.lives - 1 ≤ 0 then
        (applyPush { p with lives := 0, isAlive := false,
                            invincibleTimer := INVINCIBLE_DURATION } inter wall, true)
      else
        (applyPush { p with lives := p.lives - 1,
                            invincibleTimer := INVINCIBLE_DURATION } inter wall, true)
    else
      (applyPush p inter wall, false)

/-- `PowerUp` (lines 111-156): a 25x25 green square with a collected flag. -/
structure PowerUp where
  shape : Rect
  isCollected : Bool
  deriving DecidableEq

/-- The `PowerUp` constructor: 25x25 square at the given position,
not yet collected. -/
def PowerUp.create (pos : ℚ × ℚ) : PowerUp :=
  { shape := ⟨pos.1, pos.2, 25, 25⟩, isCollected := false }

/-- `PowerUp::checkCollision(playerShape)`: on overlap set the collected
flag and report true; otherwise report false. -/
def PowerUp.checkCollision (pu : PowerUp) (playerShape : Rect) : PowerUp × Bool :=
  match findIntersection pu.shape playerShape with
  | some _ => ({ pu with isCollected := true }, true)
  | none => (pu, false)

/-- `DamageWall` (lines 44-101): a square of side 40-80 (the side comes
from the external random source), a fixed damage of 1, and the per-frame
hit flag. -/
structure DamageWall where
  shape : Rect
  damage : ℚ
  hasHit : Bool
  deriving DecidableEq

/-- The `DamageWall` constructor: square of the given (random) side at the
given position, damage 1, hit flag clear. -/
def DamageWall.create (pos : ℚ × ℚ) (side : ℚ) : DamageWall :=
  { shape := ⟨pos.1, pos.2, side, side⟩, damage := 1, hasHit := false }

/-- `DamageWall::checkCollision(playerShape)`: report a hit (and set the
flag) when the shapes overlap and the flag is not already set. -/
def DamageWall.checkCollision (d : DamageWall) (playerShape : Rect) : DamageWall × Bool :=
  match findIntersection d.shape playerShape with
  | some _ => if d.hasHit = false then ({ d with hasHit := true }, true) else (d, false)
  | none => (d, false)

/-- `DamageWall::resetHitFlag`. -/
def DamageWall.resetHitFlag (d : DamageWall) : DamageWall := { d with hasHit := false }

/-- `GameEngine::createWalls` (lines 393-425): the four fixed gray walls,
as position-size rectangles. -/
def createWalls : List Rect :=
  [⟨350, 200, 150, 150⟩, ⟨150, 350, 100, 80⟩, ⟨550, 350, 100, 80⟩, ⟨350, 450, 120, 60⟩]

/-- `GameEngine::POWER_UP_SPAWN_INTERVAL = 3.0f`. -/
def POWER_UP_SPAWN_INTERVAL : ℚ := 3

/-- `GameEngine::DAMAGE_WALL_SPAWN_INTERVAL = 2.5f`. -/
def DAMAGE_WALL_SPAWN_INTERVAL : ℚ := 5 / 2

/-- The mutable state owned by `GameEngine` that the game logic touches
(window, font and text objects are rendering collaborators). -/
structure GameState where
  player : Player
  walls : List Rect
  powerUps : List PowerUp
  damageWalls : List DamageWall
  powerUpSpawnTimer : ℚ
  damageWallSpawnTimer : ℚ
  deriving DecidableEq

/-- The `GameEngine` constructor state: player of size 40x40 at (50, 50),
the four walls, empty spawn pools, both timers at 0. -/
def GameState.init : GameState :=
  { player := Player.create (40, 40) (50, 50)
    walls := createWalls
    powerUps := []
    damageWalls := []
    powerUpSpawnTimer := 0
    damageWallSpawnTimer := 0 }

/-- The per-frame external inputs: restart key (only consulted when the
player is dead), frame delta time from the clock, movement displacement
produced by the keyboard collaborator, and the outputs of the random
source consumed by the two spawners. -/
structure FrameInput where
  restartPressed : Bool
  dt : ℚ
  mv : ℚ × ℚ
  powerUpPos : ℚ × ℚ
  damageWallPos : ℚ × ℚ
  damageWallSide : ℚ

/-- The wall loop of `GameEngine::run` (lines 487-489): fold
`handleCollision` over the blocking walls. -/
def wallPhase : Player → List Rect → Player
  | p, [] => p
  | p, w :: ws => wallPhase (p.handleCollision w).1 ws

/-- The power-up loop (lines 492-496): check each power-up against the
current player shape, granting a life on each reported hit. -/
def powerUpPhase : Player → List PowerUp → Player × List PowerUp
  | p, [] => (p, [])
  | p, pu :: rest =>
    let c := pu.checkCollision p.shape
    let p1 := if c.2 = true then p.addLife else p
    let pr := powerUpPhase p1 rest
    (pr.1, c.1 :: pr.2)

/-- The `remove_if`/`erase` pass (lines 499-503): drop collected
power-ups. -/
def purgeCollected (pus : List PowerUp) : List PowerUp :=
  pus.filter (fun pu => !pu.isCollected)

/-- The damage-wall loop (lines 511-515): check each damage wall against
the current player shape and route each reported hit into
`handleCollision` with that wall's shape. -/
def damagePhase : Player → List DamageWall → Player × List DamageWall
  | p, [] => (p, [])
  | p, d :: rest =>
    let c := d.checkCollision p.shape
    let p1 := if c.2 = true then (p.handleCollision c.1.shape).1 else p
    let pr := damagePhase p1 rest
    (pr.1, c.1 :: pr.2)

/-- The power-up spawn check (lines 518-524): advance the timer by `dt`;
when it reached the interval, spawn one power-up if strictly under the cap
of 3, and reset the timer to 0. -/
def powerUpSpawnCheck (timer dt : ℚ) (pus : List PowerUp) (pos : ℚ × ℚ) :
    List PowerUp × ℚ :=
  let t := timer + dt
  if POWER_UP_SPAWN_INTERVAL ≤ t then
    (if pus.length < 3 then pus ++ [PowerUp.create pos] else pus, 0)
  else (pus, t)

/-- The damage-wall spawn check (lines 527-533): advance the timer by
`dt`; when it reached the interval, spawn one damage wall if strictly
under the cap of 4, and reset the timer to 0. -/
def damageWallSpawnCheck (timer dt : ℚ) (dws : List DamageWall) (pos : ℚ × ℚ)
    (side : ℚ) : List DamageWall × ℚ :=
  let t := timer + dt
  if DAMAGE_WALL_SPAWN_INTERVAL ≤ t then
    (if dws.length < 4 then dws ++ [DamageWall.create pos side] else dws, 0)
  else (dws, t)

/-- `GameEngine::restartGame` (lines 596-611): fresh player at (50, 50)
size 40x40, both spawn pools cleared, both timers reset; the walls (and
nothing else) are left untouched. -/
def restartGame (s : GameState) : GameState :=
  { s with player := Player.create (40, 40) (50, 50)
           powerUps := []
           damageWalls := []
           powerUpSpawnTimer := 0
           damageWallSpawnTimer := 0 }

/-- The body of the update branch of `GameEngine::run` (lines 482-538),
executed only while the player is alive at the start of the frame: player
update, wall collisions, power-up collection and purge, damage-wall flag
reset followed by damage-wall hits, then the two spawn checks.  The HUD
update (lines 536-537) is rendering. -/
def GameState.updateAlive (inp : FrameInput) (s : GameState) : GameState :=
  let p0 := s.player.update inp.dt inp.mv
  let p1 := wallPhase p0 s.walls
  let pp := powerUpPhase p1 s.powerUps
  let pus1 := purgeCollected pp.2
  let dws0 := s.damageWalls.map DamageWall.resetHitFlag
  let dp := damagePhase pp.1 dws0
  let ps := powerUpSpawnCheck s.powerUpSpawnTimer inp.dt pus1 inp.powerUpPos
  let ds := damageWallSpawnCheck s.damageWallSpawnTimer inp.dt dp.2
              inp.damageWallPos inp.damageWallSide
  { player := dp.1
    walls := s.walls
    powerUps := ps.1
    damageWalls := ds.1
    powerUpSpawnTimer := ps.2
    damageWallSpawnTimer := ds.2 }

/-- One iteration of the `GameEngine::run` loop (lines 457-573): the event
phase (Enter restarts the game only when the player is dead; window close
and Escape leave the state untouched and end the loop), then the guarded
update block.  Rendering (lines 540-571) does not touch this state. -/
def frame (inp : FrameInput) (s : GameState) : GameState :=
  let s1 := if s.player.isAlive = false ∧ inp.restartPressed = true then restartGame s else s
  if s1.player.isAlive = true then GameState.updateAlive inp s1 else s1

/-- The states the engine can reach: the constructor state, closed under
frames with arbitrary external inputs (a superset of the states reachable
under the real clock, keyboard and random source). -/
inductive Reachable : GameState → Prop
  | init : Reachable GameState.init
  | step (inp : FrameInput) {s : GameState} : Reachable s → Reachable (frame inp s)

/-! ### Concrete probe values used for counterexamples and witnesses -/

/-- A 100x100 player, wider than the thin wall below, not invincible. -/
def pushCexPlayer : Player :=
  { shape := ⟨0, 0, 100, 100⟩, speed := 350, lives := 5, isAlive := true, invincibleTimer := 0 }

/-- A thin tall wall overlapping the left part of `pushCexPlayer`. -/
def pushCexWall : Rect := ⟨5, 0, 10, 100⟩

/-- A 40x40 player at the origin with 2 lives, not invincible. -/
def probeP : Player :=
  { shape := ⟨0, 0, 40, 40⟩, speed := 350, lives := 2, isAlive := true, invincibleTimer := 0 }

/-- The same player during its invincibility window (timer 1 s). -/
def probeInvP : Player :=
  { shape := ⟨0, 0, 40, 40⟩, speed := 350, lives := 2, isAlive := true, invincibleTimer := 1 }

/-- A 40x40 obstacle overlapping the right 10 px of the probe player. -/
def probeWall : Rect := ⟨30, 0, 40, 40⟩

/-- A 40x40 player with 5 lives, not invincible. -/
def dwP : Player :=
  { shape := ⟨0, 0, 40, 40⟩, speed := 350, lives := 5, isAlive := true, invincibleTimer := 0 }

/-- A fresh damage wall overlapping the right 10 px of `dwP`. -/
def dwD : DamageWall := { shape := ⟨30, 0, 40, 40⟩, damage := 1, hasHit := false }

/-- A power-up overlapping the probe player. -/
def witPU : PowerUp := PowerUp.create (30, 0)

/-- An already-collected power-up. -/
def witCollected : PowerUp := { shape := ⟨0, 0, 25, 25⟩, isCollected := true }

/-! ### Basic lemmas about the player operations -/

lemma applyPush_lives (p : Player) (inter wall : Rect) :
    (applyPush p inter wall).lives = p.lives := by
  unfold applyPush; split_ifs <;> rfl

lemma applyPush_isAlive (p : Player) (inter wall : Rect) :
    (applyPush p inter wall).isAlive = p.isAlive := by
  unfold applyPush; split_ifs <;> rfl

lemma applyPush_invincibleTimer (p : Player) (inter wall : Rect) :
    (applyPush p inter wall).invincibleTimer = p.invincibleTimer := by
  unfold applyPush; split_ifs <;> rfl

lemma handleCollision_none {p : Player} {w : Rect}
    (h : findIntersection p.shape w = none) : p.handleCollision w = (p, false) := by
  rw [Player.handleCollision.eq_def, h]

lemma handleCollision_some_invincible {p : Player} {w inter : Rect}
    (hI : findIntersection p.shape w = some inter) (ht : ¬ p.invincibleTimer ≤ 0) :
    p.handleCollision w = (applyPush p inter w, false) := by
  rw [Player.handleCollision.eq_def, hI]; simp only [if_neg ht]

lemma handleCollision_some_fatal {p : Player} {w inter : Rect}
    (hI : findIntersection p.shape w = some inter) (ht : p.invincibleTimer ≤ 0)
    (hl : p.lives - 1 ≤ 0) :
    p.handleCollision w =
      (applyPush { p with lives := 0, isAlive := false,
                          invincibleTimer := INVINCIBLE_DURATION } inter w, true) := by
  rw [Player.handleCollision.eq_def, hI]; simp only [if_pos ht, if_pos hl]

lemma handleCollision_some_hit {p : Player} {w inter : Rect}
    (hI : findIntersection p.shape w = some inter) (ht : p.invincibleTimer ≤ 0)
    (hl : ¬ p.lives - 1 ≤ 0) :
    p.handleCollision w =
      (applyPush { p with lives := p.lives - 1,
                          invincibleTimer := INVINCIBLE_DURATION } inter w, true) := by
  rw [Player.handleCollision.eq_def, hI]; simp only [if_pos ht, if_neg hl]

lemma handleCollision_lives_nonneg (p : Player) (w : Rect) (h : 0 ≤ p.lives) :
    0 ≤ (p.handleCollision w).1.lives := by
  rcases hI : findIntersection p.shape w with _ | inter
  · rw [handleCollision_none hI]; exact h
  · by_cases ht : p.invincibleTimer ≤ 0
    · by_cases hl : p.lives - 1 ≤ 0
      · rw [handleCollision_some_fatal hI ht hl]; simp [applyPush_lives]
      · rw [handleCollision_some_hit hI ht hl]; simp only [applyPush_lives]; omega
    · rw [handleCollision_some_invincible hI ht]; simp only [applyPush_lives]; exact h

lemma handleCollision_isAlive_of_dead (p : Player) (w : Rect) (h : p.isAlive = false) :
    (p.handleCollision w).1.isAlive = false := by
  rcases hI : findIntersection p.shape w with _ | inter
  · rw [handleCollision_none hI]; exact h
  · by_cases ht : p.invincibleTimer ≤ 0
    · by_cases hl : p.lives - 1 ≤ 0
      · rw [handleCollision_some_fatal hI ht hl]; simp [applyPush_isAlive]
      · rw [handleCollision_some_hit hI ht hl]; simp only [applyPush_isAlive]; exact h
    · rw [handleCollision_some_invincible hI ht]; simp only [applyPush_isAlive]; exact h

lemma update_lives (p : Player) (dt : ℚ) (mv : ℚ × ℚ) :
    (p.update dt mv).lives = p.lives := by
  unfold Player.update; split_ifs <;> rfl

lemma update_isAlive (p : Player) (dt : ℚ) (mv : ℚ × ℚ) :
    (p.update dt mv).isAlive = p.isAlive := by
  unfold Player.update; split_ifs <;> rfl

lemma update_of_dead (p : Player) (dt : ℚ) (mv : ℚ × ℚ) (h : p.isAlive = false) :
    p.update dt mv = p := by
  unfold Player.update; rw [if_pos h]

lemma addLife_lives (p : Player) : (p.addLife).lives = p.lives + 1 := rfl

lemma addLife_isAlive (p : Player) : (p.addLife).isAlive = p.isAlive := rfl

/-! ### Lemmas about the per-frame phases -/

lemma wallPhase_lives_nonneg (ws : List Rect) :
    ∀ p : Player, 0 ≤ p.lives → 0 ≤ (wallPhase p ws).lives := by
  induction ws with
  | nil => intro p h; exact h
  | cons w ws ih => intro p h; exact ih _ (handleCollision_lives_nonneg p w h)

lemma powerUpPhase_lives_nonneg (pus : List PowerUp) :
    ∀ p : Player, 0 ≤ p.lives → 0 ≤ (powerUpPhase p pus).1.lives := by
  induction pus with
  | nil => intro p h; exact h
  | cons pu rest ih =>
    intro p h
    show 0 ≤ (powerUpPhase (if (pu.checkCollision p.shape).2 = true then p.addLife else p) rest).1.lives
    apply ih
    split_ifs
    · rw [addLife_lives]; omega
    · exact h

lemma powerUpPhase_length (pus : List PowerUp) :
    ∀ p : Player, ((powerUpPhase p pus).2).length = pus.length := by
  induction pus with
  | nil => intro p; rfl
  | cons pu rest ih =>
    intro p
    show ((pu.checkCollision p.shape).1 ::
      (powerUpPhase (if (pu.checkCollision p.shape).2 = true then p.addLife else p) rest).2).length
        = rest.length + 1
    rw [List.length_cons, ih]

lemma damagePhase_lives_nonneg (dws : List DamageWall) :
    ∀ p : Player, 0 ≤ p.lives → 0 ≤ (damagePhase p dws).1.lives := by
  induction dws with
  | nil => intro p h; exact h
  | cons d rest ih =>
    intro p h
    show 0 ≤ (damagePhase (if (d.checkCollision p.shape).2 = true
      then (p.handleCollision (d.checkCollision p.shape).1.shape).1 else p) rest).1.lives
    apply ih
    split_ifs
    · exact handleCollision_lives_nonneg _ _ h
    · exact h

lemma damagePhase_length (dws : List DamageWall) :
    ∀ p : Player, ((damagePhase p dws).2).length = dws.length := by
  induction dws with
  | nil => intro p; rfl
  | cons d rest ih =>
    intro p
    show ((d.checkCollision p.shape).1 ::
      (damagePhase (if (d.checkCollision p.shape).2 = true
        then (p.handleCollision (d.checkCollision p.shape).1.shape).1 else p) rest).2).length
          = rest.length + 1
    rw [List.length_cons, ih]

lemma purgeCollected_length_le (pus : List PowerUp) :
    (purgeCollected pus).length ≤ pus.length :=
  List.length_filter_le _ _

lemma purgeCollected_mem {pus : List PowerUp} {pu : PowerUp}
    (h : pu ∈ purgeCollected pus) : pu.isCollected = false := by
  unfold purgeCollected at h
  have := List.of_mem_filter h
  simpa using this

lemma powerUpSpawnCheck_length_le {t dt : ℚ} {pus : List PowerUp} {pos : ℚ × ℚ}
    (h : pus.length ≤ 3) : (powerUpSpawnCheck t dt pus pos).1.length ≤ 3 := by
  unfold powerUpSpawnCheck
  by_cases h1 : POWER_UP_SPAWN_INTERVAL ≤ t + dt
  · rw [if_pos h1]
    by_cases h2 : pus.length < 3
    · rw [if_pos h2]; simp only [List.length_append, List.length_singleton]; omega
    · rw [if_neg h2]; exact h
  · rw [if_neg h1]; exact h

lemma damageWallSpawnCheck_length_le {t dt : ℚ} {dws : List DamageWall} {pos : ℚ × ℚ}
    {side : ℚ} (h : dws.length ≤ 4) :
    (damageWallSpawnCheck t dt dws pos side).1.length ≤ 4 := by
  unfold damageWallSpawnCheck
  by_cases h1 : DAMAGE_WALL_SPAWN_INTERVAL ≤ t + dt
  · rw [if_pos h1]
    by_cases h2 : dws.length < 4
    · rw [if_pos h2]; simp only [List.length_append, List.length_singleton]; omega
    · rw [if_neg h2]; exact h
  · rw [if_neg h1]; exact h

lemma powerUpSpawnCheck_mem {t dt : ℚ} {pus : List PowerUp} {pos : ℚ × ℚ} {pu : PowerUp}
    (h : ∀ q ∈ pus, q.isCollected = false)
    (hm : pu ∈ (powerUpSpawnCheck t dt pus pos).1) : pu.isCollected = false := by
  unfold powerUpSpawnCheck at hm
  by_cases h1 : POWER_UP_SPAWN_INTERVAL ≤ t + dt
  · rw [if_pos h1] at hm
    by_cases h2 : pus.length < 3
    · rw [if_pos h2] at hm
      rcases List.mem_append.mp hm with hm1 | hm1
      · exact h _ hm1
      · simp only [List.mem_singleton] at hm1
        rw [hm1]; rfl
    · rw [if_neg h2] at hm; exact h _ hm
  · rw [if_neg h1] at hm; exact h _ hm

/-! ### The reachability invariant -/

/-- The state invariant maintained by every frame: lives are never
negative, the two spawn pools respect their caps, every power-up still in
the active list is uncollected, and the walls are the four fixed ones. -/
def GameInv (s : GameState) : Prop :=
  0 ≤ s.player.lives ∧ s.powerUps.length ≤ 3 ∧ s.damageWalls.length ≤ 4 ∧
    (∀ pu ∈ s.powerUps, pu.isCollected = false) ∧ s.walls = createWalls

lemma gameInv_init : GameInv GameState.init := by
  refine ⟨le_refl 0, ?_, ?_, ?_, rfl⟩ <;> simp [GameState.init]

lemma gameInv_restart {s : GameState} (h : GameInv s) : GameInv (restartGame s) := by
  obtain ⟨-, -, -, -, h5⟩ := h
  exact ⟨le_refl 0, by simp [restartGame], by simp [restartGame], by simp [restartGame],
    by simpa [restartGame] using h5⟩

lemma gameInv_updateAlive (inp : FrameInput) {s : GameState} (h : GameInv s) :
    GameInv (GameState.updateAlive inp s) := by
  obtain ⟨h1, h2, h3, h4, h5⟩ := h
  unfold GameState.updateAlive
  refine ⟨?_, ?_, ?_, ?_, h5⟩
  · apply damagePhase_lives_nonneg
    apply powerUpPhase_lives_nonneg
    apply wallPhase_lives_nonneg
    rw [update_lives]
    exact h1
  · apply powerUpSpawnCheck_length_le
    calc (purgeCollected (powerUpPhase (wallPhase (s.player.update inp.dt inp.mv)
          s.walls) s.powerUps).2).length
      ≤ ((powerUpPhase (wallPhase (s.player.update inp.dt inp.mv) s.walls)
          s.powerUps).2).length := purgeCollected_length_le _
    _ = s.powerUps.length := powerUpPhase_length _ _
    _ ≤ 3 := h2
  · apply damageWallSpawnCheck_length_le
    calc ((damagePhase (powerUpPhase (wallPhase (s.player.update inp.dt inp.mv)
          s.walls) s.powerUps).1 (s.damageWalls.map DamageWall.resetHitFlag)).2).length
      = (s.damageWalls.map DamageWall.resetHitFlag).length := damagePhase_length _ _
    _ = s.damageWalls.length := List.length_map _ _
    _ ≤ 4 := h3
  · intro pu hm
    exact powerUpSpawnCheck_mem (fun q hq => purgeCollected_mem hq) hm


lemma gameInv_frame (inp : FrameInput) {s : GameState} (h : GameInv s) :
    GameInv (frame inp s) := by
  unfold frame
  by_cases hc : s.player.isAlive = false ∧ inp.restartPressed = true
  · rw [if_pos hc]
    by_cases ha : (restartGame s).player.isAlive = true
    · rw [if_pos ha]; exact gameInv_updateAlive inp (gameInv_restart h)
    · rw [if_neg ha]; exact gameInv_restart h
  · rw [if_neg hc]
    by_cases ha : s.player.isAlive = true
    · rw [if_pos ha]; exact gameInv_updateAlive inp h
    · rw [if_neg ha]; exact h

lemma reachable_gameInv {s : GameState} (h : Reachable s) : GameInv s := by
  induction h with
  | init => exact gameInv_init
  | step inp hs ih => exact gameInv_frame inp ih

lemma frame_of_dead {inp : FrameInput} {s : GameState}
    (h1 : s.player.isAlive = false) (h2 : inp.restartPressed = false) :
    frame inp s = s := by
  unfold frame
  have hc : ¬ (s.player.isAlive = false ∧ inp.restartPressed = true) := by simp [h2]
  rw [if_neg hc]
  rw [if_neg (by simp [h1] : ¬ s.player.isAlive = true)]

/-! ### Lemmas about the collision primitive -/

lemma findIntersection_some_bounds {a b r : Rect} (hI : findIntersection a b = some r) :
    max a.x b.x < min (a.x + a.w) (b.x + b.w) ∧
    max a.y b.y < min (a.y + a.h) (b.y + b.h) ∧
    r = ⟨max a.x b.x, max a.y b.y,
         min (a.x + a.w) (b.x + b.w) - max a.x b.x,
         min (a.y + a.h) (b.y + b.h) - max a.y b.y⟩ := by
  unfold findIntersection at hI
  dsimp only at hI
  split_ifs at hI with hc
  exact ⟨hc.1, hc.2, (Option.some_inj.mp hI).symm⟩

lemma sharesPosArea_of_some {a b r : Rect} (hI : findIntersection a b = some r) :
    sharesPosArea a b := by
  obtain ⟨h1, h2, -⟩ := findIntersection_some_bounds hI
  refine ⟨((max a.x b.x + min (a.x + a.w) (b.x + b.w)) / 2,
           (max a.y b.y + min (a.y + a.h) (b.y + b.h)) / 2), ?_, ?_⟩
  · refine ⟨?_, ?_, ?_, ?_⟩ <;>
      [skip; skip; skip; skip] <;>
      · simp only []
        have hxl := le_max_left a.x b.x
        have hxr := min_le_left (a.x + a.w) (b.x + b.w)
        have hyl := le_max_left a.y b.y
        have hyr := min_le_left (a.y + a.h) (b.y + b.h)
        linarith
  · refine ⟨?_, ?_, ?_, ?_⟩ <;>
      · simp only []
        have hxl := le_max_right a.x b.x
        have hxr := min_le_right (a.x + a.w) (b.x + b.w)
        have hyl := le_max_right a.y b.y
        have hyr := min_le_right (a.y + a.h) (b.y + b.h)
        linarith

lemma findIntersection_none_of_not_shares {a b : Rect} (h : ¬ sharesPosArea a b) :
    findIntersection a b = none := by
  rcases hI : findIntersection a b with _ | r
  · rfl
  · exact absurd (sharesPosArea_of_some hI) h

/-! ### Push, death and invincibility characterisations -/

lemma applyPush_x_of_lt {inter : Rect} (p : Player) (wall : Rect) (h : inter.w < inter.h) :
    (applyPush p inter wall).shape.x =
      p.shape.x + (if p.shape.x < wall.x then -inter.w else inter.w) := by
  unfold applyPush; rw [if_pos h]

lemma applyPush_y_of_lt {inter : Rect} (p : Player) (wall : Rect) (h : inter.w < inter.h) :
    (applyPush p inter wall).shape.y = p.shape.y := by
  unfold applyPush; rw [if_pos h]

lemma applyPush_y_of_ge {inter : Rect} (p : Player) (wall : Rect) (h : ¬ inter.w < inter.h) :
    (applyPush p inter wall).shape.y =
      p.shape.y + (if p.shape.y < wall.y then -inter.h else inter.h) := by
  unfold applyPush; rw [if_neg h]

lemma applyPush_x_of_ge {inter : Rect} (p : Player) (wall : Rect) (h : ¬ inter.w < inter.h) :
    (applyPush p inter wall).shape.x = p.shape.x := by
  unfold applyPush; rw [if_neg h]

lemma applyPush_shape_congr {p q : Player} (h : p.shape = q.shape) (inter wall : Rect) :
    (applyPush p inter wall).shape = (applyPush q inter wall).shape := by
  unfold applyPush
  rw [h]
  split_ifs <;> rfl

lemma handleCollision_shape (p : Player) (w : Rect) :
    (p.handleCollision w).1.shape =
      match findIntersection p.shape w with
      | none => p.shape
      | some inter => (applyPush p inter w).shape := by
  rcases hI : findIntersection p.shape w with _ | inter
  · rw [handleCollision_none hI]
  · by_cases ht : p.invincibleTimer ≤ 0
    · by_cases hl : p.lives - 1 ≤ 0
      · rw [handleCollision_some_fatal hI ht hl]
        exact @applyPush_shape_congr { p with lives := 0, isAlive := false, invincibleTimer := INVINCIBLE_DURATION } p rfl inter w
      · rw [handleCollision_some_hit hI ht hl]
        exact @applyPush_shape_congr { p with lives := p.lives - 1, invincibleTimer := INVINCIBLE_DURATION } p rfl inter w
    · rw [handleCollision_some_invincible hI ht]

lemma handleCollision_death_iff (p : Player) (w : Rect) (h : p.isAlive = true) :
    (p.handleCollision w).1.isAlive = false ↔
      ((findIntersection p.shape w).isSome = true ∧ p.invincibleTimer ≤ 0 ∧ p.lives ≤ 1) := by
  rcases hI : findIntersection p.shape w with _ | inter
  · rw [handleCollision_none hI]
    simp [h]
  · by_cases ht : p.invincibleTimer ≤ 0
    · by_cases hl : p.lives - 1 ≤ 0
      · rw [handleCollision_some_fatal hI ht hl]
        simp only [applyPush_isAlive, Option.isSome_some, true_and]
        constructor
        · intro _; exact ⟨ht, by omega⟩
        · intro _; trivial
      · rw [handleCollision_some_hit hI ht hl]
        simp only [applyPush_isAlive, Option.isSome_some, true_and]
        constructor
        · intro hcon; rw [h] at hcon; cases hcon
        · intro hcon; omega
    · rw [handleCollision_some_invincible hI ht]
      simp only [applyPush_isAlive, Option.isSome_some, true_and, h]
      constructor
      · intro hcon; cases hcon
      · intro hcon; exact absurd hcon.1 ht

lemma handleCollision_dead_lives (p : Player) (w : Rect) (h : p.isAlive = true)
    (hd : (p.handleCollision w).1.isAlive = false) : (p.handleCollision w).1.lives = 0 := by
  rcases hI : findIntersection p.shape w with _ | inter
  · rw [handleCollision_none hI] at hd
    rw [h] at hd; cases hd
  · by_cases ht : p.invincibleTimer ≤ 0
    · by_cases hl : p.lives - 1 ≤ 0
      · rw [handleCollision_some_fatal hI ht hl]
        simp [applyPush_lives]
      · rw [handleCollision_some_hit hI ht hl] at hd
        simp only [applyPush_isAlive] at hd
        rw [h] at hd; cases hd
    · rw [handleCollision_some_invincible hI ht] at hd
      simp only [applyPush_isAlive] at hd
      rw [h] at hd; cases hd

lemma handleCollision_invincible_frozen (p : Player) (w : Rect)
    (ht : 0 < p.invincibleTimer) :
    (p.handleCollision w).1.lives = p.lives ∧ (p.handleCollision w).2 = false ∧
    (p.handleCollision w).1.invincibleTimer = p.invincibleTimer ∧
    (p.handleCollision w).1.isAlive = p.isAlive := by
  have ht' : ¬ p.invincibleTimer ≤ 0 := by linarith
  rcases hI : findIntersection p.shape w with _ | inter
  · rw [handleCollision_none hI]
    exact ⟨rfl, rfl, rfl, rfl⟩
  · rw [handleCollision_some_invincible hI ht']
    exact ⟨applyPush_lives _ _ _, rfl, applyPush_invincibleTimer _ _ _, applyPush_isAlive _ _ _⟩

lemma handleCollision_invincible_push {p : Player} {w inter : Rect}
    (ht : 0 < p.invincibleTimer) (hI : findIntersection p.shape w = some inter) :
    (p.handleCollision w).1 = applyPush p inter w := by
  rw [handleCollision_some_invincible hI (by linarith)]

lemma handleCollision_timer_set {p : Player} {w inter : Rect}
    (ht : p.invincibleTimer ≤ 0) (hI : findIntersection p.shape w = some inter) :
    (p.handleCollision w).1.invincibleTimer = INVINCIBLE_DURATION := by
  by_cases hl : p.lives - 1 ≤ 0
  · rw [handleCollision_some_fatal hI ht hl]
    simp [applyPush_invincibleTimer]
  · rw [handleCollision_some_hit hI ht hl]
    simp [applyPush_invincibleTimer]

/-! ### Power-up and damage-wall collision lemmas -/

lemma powerUp_checkCollision_none {pu : PowerUp} {r : Rect}
    (h : findIntersection pu.shape r = none) : pu.checkCollision r = (pu, false) := by
  rw [PowerUp.checkCollision.eq_def, h]

lemma powerUp_checkCollision_some {pu : PowerUp} {r i : Rect}
    (h : findIntersection pu.shape r = some i) :
    pu.checkCollision r = ({ pu with isCollected := true }, true) := by
  rw [PowerUp.checkCollision.eq_def, h]

lemma powerUp_collected_of_true {pu : PowerUp} {r : Rect}
    (h : (pu.checkCollision r).2 = true) : (pu.checkCollision r).1.isCollected = true := by
  rcases hI : findIntersection pu.shape r with _ | i
  · rw [powerUp_checkCollision_none hI] at h; cases h
  · rw [powerUp_checkCollision_some hI]

lemma powerUp_collected_mono {pu : PowerUp} {r : Rect}
    (h : pu.isCollected = true) : (pu.checkCollision r).1.isCollected = true := by
  rcases hI : findIntersection pu.shape r with _ | i
  · rw [powerUp_checkCollision_none hI]; exact h
  · rw [powerUp_checkCollision_some hI]

lemma purgeCollected_not_mem {pus : List PowerUp} {pu : PowerUp}
    (h : pu.isCollected = true) : pu ∉ purgeCollected pus := by
  intro hm
  rw [purgeCollected_mem hm] at h
  cases h

lemma damageWall_checkCollision_none {d : DamageWall} {r : Rect}
    (h : findIntersection d.shape r = none) : d.checkCollision r = (d, false) := by
  rw [DamageWall.checkCollision.eq_def, h]

lemma damageWall_checkCollision_some_fresh {d : DamageWall} {r i : Rect}
    (hI : findIntersection d.shape r = some i) (hh : d.hasHit = false) :
    d.checkCollision r = ({ d with hasHit := true }, true) := by
  rw [DamageWall.checkCollision.eq_def, hI]
  rw [if_pos hh]

lemma damageWall_checkCollision_some_stale {d : DamageWall} {r i : Rect}
    (hI : findIntersection d.shape r = some i) (hh : ¬ d.hasHit = false) :
    d.checkCollision r = (d, false) := by
  rw [DamageWall.checkCollision.eq_def, hI]
  rw [if_neg hh]

lemma damageWall_hit_of_true {d : DamageWall} {r : Rect}
    (h : (d.checkCollision r).2 = true) :
    d.hasHit = false ∧ (d.checkCollision r).1.hasHit = true := by
  rcases hI : findIntersection d.shape r with _ | i
  · rw [damageWall_checkCollision_none hI] at h; cases h
  · by_cases hh : d.hasHit = false
    · rw [damageWall_checkCollision_some_fresh hI hh]
      exact ⟨hh, rfl⟩
    · rw [damageWall_checkCollision_some_stale hI hh] at h; cases h

lemma damageWall_no_second_hit {d : DamageWall} {r r2 : Rect}
    (h : (d.checkCollision r).2 = true) :
    (((d.checkCollision r).1).checkCollision r2).2 = false := by
  have hflag := (damageWall_hit_of_true h).2
  rcases hI : findIntersection ((d.checkCollision r).1).shape r2 with _ | i
  · rw [damageWall_checkCollision_none hI]
  · rw [damageWall_checkCollision_some_stale hI (by rw [hflag]; exact fun hcon => by cases hcon)]

/-! ### Claim theorems -/

/-- Claim C10: for all axis-aligned rectangles A and B, if A and B share no
positive-area region (including merely touching along an edge or corner),
the collision primitive reports no overlap and a collision handler built on
it has no effect; and if it reports an overlap, the overlap rectangle has
strictly positive width and height and is contained within both A and B. -/
theorem collision_primitive_correct :
    (∀ a b : Rect, ¬ sharesPosArea a b → findIntersection a b = none) ∧
    (∀ a b r : Rect, findIntersection a b = some r →
      0 < r.w ∧ 0 < r.h ∧
      a.x ≤ r.x ∧ a.y ≤ r.y ∧ r.x + r.w ≤ a.x + a.w ∧ r.y + r.h ≤ a.y + a.h ∧
      b.x ≤ r.x ∧ b.y ≤ r.y ∧ r.x + r.w ≤ b.x + b.w ∧ r.y + r.h ≤ b.y + b.h) ∧
    (∀ (p : Player) (w : Rect), findIntersection p.shape w = none →
      p.handleCollision w = (p, false)) := by
  refine ⟨fun a b h => findIntersection_none_of_not_shares h, ?_,
    fun p w h => handleCollision_none h⟩
  intro a b r hI
  obtain ⟨h1, h2, h3⟩ := findIntersection_some_bounds hI
  subst h3
  have hxa := le_max_left a.x b.x
  have hxb := le_max_right a.x b.x
  have hwa := min_le_left (a.x + a.w) (b.x + b.w)
  have hwb := min_le_right (a.x + a.w) (b.x + b.w)
  have hya := le_max_left a.y b.y
  have hyb := le_max_right a.y b.y
  have hha := min_le_left (a.y + a.h) (b.y + b.h)
  have hhb := min_le_right (a.y + a.h) (b.y + b.h)
  refine ⟨?_, ?_, ?_, ?_, ?_, ?_, ?_, ?_, ?_, ?_⟩ <;> dsimp only <;> linarith

/-- Witness for C10: the touching rectangles [0,1]x[0,1] and [1,2]x[0,1]
share no positive-area region and the primitive reports no overlap; an
actual overlap query returns a positive-width rectangle. -/
theorem collision_primitive_correct_witness :
    findIntersection ⟨0, 0, 1, 1⟩ ⟨1, 0, 1, 1⟩ = none ∧
    0 < (⟨5, 0, 10, 100⟩ : Rect).w := by
  constructor
  · apply collision_primitive_correct.1
    rintro ⟨q, ha, hb⟩
    simp only [Rect.interiorPt] at ha hb
    obtain ⟨-, ha2, -, -⟩ := ha
    obtain ⟨hb1, -, -, -⟩ := hb
    norm_num at ha2 hb1
    linarith
  · exact (collision_primitive_correct.2.1 ⟨0, 0, 100, 100⟩ ⟨5, 0, 10, 100⟩ ⟨5, 0, 10, 100⟩
      (by norm_num [findIntersection])).1

/-- Claim C1: in every reachable state the lives visible through getLives
are never negative; the alive flag changes only inside handleCollision
(update and addLife preserve it), a live player dies in exactly the
handleCollision call whose overlapping, non-invincible hit finds it with
lives at most 1, and at that moment lives are clamped to 0; once dead the
player stays dead through update, through further collisions, and through
whole frames, until a restart (which replaces the Player) is requested. -/
theorem player_lives_death_invariant :
    (∀ s : GameState, Reachable s → 0 ≤ s.player.getLives) ∧
    (∀ (p : Player) (dt : ℚ) (mv : ℚ × ℚ), (p.update dt mv).isAlive = p.isAlive) ∧
    (∀ p : Player, (p.addLife).isAlive = p.isAlive) ∧
    (∀ (p : Player) (w : Rect), p.isAlive = true →
      ((p.handleCollision w).1.isAlive = false ↔
        (findIntersection p.shape w).isSome = true ∧ p.invincibleTimer ≤ 0 ∧ p.lives ≤ 1) ∧
      ((p.handleCollision w).1.isAlive = false → (p.handleCollision w).1.getLives = 0)) ∧
    (∀ (p : Player) (w : Rect) (dt : ℚ) (mv : ℚ × ℚ), p.isAlive = false →
      p.update dt mv = p ∧ (p.handleCollision w).1.isAlive = false) ∧
    (∀ (inp : FrameInput) (s : GameState), s.player.isAlive = false →
      inp.restartPressed = false → frame inp s = s) := by
  refine ⟨fun s hs => (reachable_gameInv hs).1,
    fun p dt mv => update_isAlive p dt mv,
    fun p => addLife_isAlive p,
    fun p w h => ⟨handleCollision_death_iff p w h, handleCollision_dead_lives p w h⟩,
    fun p w dt mv h => ⟨update_of_dead p dt mv h, handleCollision_isAlive_of_dead p w h⟩,
    fun inp s h1 h2 => frame_of_dead h1 h2⟩

/-- Witness for C1: the initial state has non-negative lives, and the fresh
player (0 lives, not invincible) dies in a first overlapping collision. -/
theorem player_lives_death_invariant_witness :
    0 ≤ (GameState.init).player.getLives ∧
    ((Player.create (40, 40) (50, 50)).handleCollision ⟨50, 50, 40, 40⟩).1.isAlive = false := by
  constructor
  · exact player_lives_death_invariant.1 GameState.init Reachable.init
  · refine (player_lives_death_invariant.2.2.2.1 (Player.create (40, 40) (50, 50))
      ⟨50, 50, 40, 40⟩ rfl).1.mpr ⟨?_, ?_, ?_⟩
    · rw [show findIntersection (Player.create (40, 40) (50, 50)).shape ⟨50, 50, 40, 40⟩
        = some ⟨50, 50, 40, 40⟩ from by norm_num [Player.create, findIntersection]]
      rfl
    · norm_num [Player.create]
    · norm_num [Player.create]

/-- Counterexample to C2: in the reachable initial state the freshly
constructed player has the alive flag set while its lives are 0, so
"alive exactly when lives > 0" fails on the code. -/
theorem alive_iff_livesPos_counterexample :
    ¬ (∀ s : GameState, Reachable s →
        (s.player.isAlive = true ↔ 0 < s.player.getLives)) := by
  intro h
  have h0 := (h GameState.init Reachable.init).mp rfl
  simp [GameState.init, Player.create, Player.getLives] at h0

/-- Amended C2: a freshly constructed player (also after restart) is alive
with lives = 0, so the biconditional does not hold; what holds is that
lives are never negative in any reachable state, and that whenever a live
player's handleCollision clears the alive flag it simultaneously leaves
lives equal to 0. -/
theorem alive_lives_relation :
    ((GameState.init).player.isAlive = true ∧ (GameState.init).player.getLives = 0) ∧
    (∀ s : GameState, Reachable s → 0 ≤ s.player.getLives) ∧
    (∀ (p : Player) (w : Rect), p.isAlive = true →
      (p.handleCollision w).1.isAlive = false → (p.handleCollision w).1.getLives = 0) :=
  ⟨⟨rfl, rfl⟩, fun s hs => (reachable_gameInv hs).1,
   fun p w h hd => handleCollision_dead_lives p w h hd⟩

/-- Witness for the amended C2: instantiated at the initial state and at a
concrete fatal collision of the fresh player. -/
theorem alive_lives_relation_witness :
    0 ≤ (GameState.init).player.getLives ∧
    ((Player.create (40, 40) (50, 50)).handleCollision ⟨50, 50, 40, 40⟩).1.getLives = 0 := by
  have hI : findIntersection (Player.create (40, 40) (50, 50)).shape ⟨50, 50, 40, 40⟩
      = some ⟨50, 50, 40, 40⟩ := by norm_num [Player.create, findIntersection]
  have hd : ((Player.create (40, 40) (50, 50)).handleCollision ⟨50, 50, 40, 40⟩).1.isAlive
      = false := by
    rw [handleCollision_some_fatal hI (by norm_num [Player.create]) (by norm_num [Player.create])]
    simp [applyPush_isAlive]
  exact ⟨alive_lives_relation.2.1 GameState.init Reachable.init,
    alive_lives_relation.2.2 (Player.create (40, 40) (50, 50)) ⟨50, 50, 40, 40⟩ rfl hd⟩

/-- Claim C3: while the invincibility timer is strictly positive, a further
overlapping obstacle in handleCollision never changes lives, never triggers
the hit sound, never restarts the timer and never changes the alive flag,
but the position-correction push is still applied; and when a hit does land
(timer at most 0, shapes overlapping) the timer is set to exactly 1.5 s. -/
theorem invincibility_window :
    (∀ (p : Player) (w : Rect), 0 < p.invincibleTimer →
      (p.handleCollision w).1.lives = p.lives ∧
      (p.handleCollision w).2 = false ∧
      (p.handleCollision w).1.invincibleTimer = p.invincibleTimer ∧
      (p.handleCollision w).1.isAlive = p.isAlive) ∧
    (∀ (p : Player) (w inter : Rect), 0 < p.invincibleTimer →
      findIntersection p.shape w = some inter →
      (p.handleCollision w).1 = applyPush p inter w) ∧
    (∀ (p : Player) (w inter : Rect), p.invincibleTimer ≤ 0 →
      findIntersection p.shape w = some inter →
      (p.handleCollision w).1.invincibleTimer = INVINCIBLE_DURATION) :=
  ⟨fun p w ht => handleCollision_invincible_frozen p w ht,
   fun p w inter ht hI => handleCollision_invincible_push ht hI,
   fun p w inter ht hI => handleCollision_timer_set ht hI⟩

/-- Witness for C3: an invincible player overlapping an obstacle keeps its
lives, and a non-invincible overlapping hit sets the timer to 1.5 s. -/
theorem invincibility_window_witness :
    (probeInvP.handleCollision probeWall).1.lives = probeInvP.lives ∧
    (probeInvP.handleCollision probeWall).1 = applyPush probeInvP ⟨30, 0, 10, 40⟩ probeWall ∧
    (probeP.handleCollision probeWall).1.invincibleTimer = INVINCIBLE_DURATION := by
  have hI1 : findIntersection probeInvP.shape probeWall = some ⟨30, 0, 10, 40⟩ := by
    norm_num [probeInvP, probeWall, findIntersection]
  have hI2 : findIntersection probeP.shape probeWall = some ⟨30, 0, 10, 40⟩ := by
    norm_num [probeP, probeWall, findIntersection]
  exact ⟨(invincibility_window.1 probeInvP probeWall (by norm_num [probeInvP])).1,
    invincibility_window.2.1 probeInvP probeWall ⟨30, 0, 10, 40⟩ (by norm_num [probeInvP]) hI1,
    invincibility_window.2.2 probeP probeWall ⟨30, 0, 10, 40⟩ (by norm_num [probeP]) hI2⟩

/-- Counterexample to C4: a 100-wide player overlapping a 10-wide wall.
The overlap is ⟨5, 0, 10, 100⟩ with width < height, the player's centre
(x = 50) lies strictly to the right of the obstacle's centre (x = 10), yet
the code moves the player left (to x = -10, i.e. by minus the overlap
width), because it compares top-left corner positions, not centres. -/
theorem pushDirection_center_counterexample :
    findIntersection pushCexPlayer.shape pushCexWall = some ⟨5, 0, 10, 100⟩ ∧
    (⟨5, 0, 10, 100⟩ : Rect).w < (⟨5, 0, 10, 100⟩ : Rect).h ∧
    pushCexWall.x + pushCexWall.w / 2 < pushCexPlayer.shape.x + pushCexPlayer.shape.w / 2 ∧
    (pushCexPlayer.handleCollision pushCexWall).1.shape.x = pushCexPlayer.shape.x - 10 ∧
    ¬ (pushCexPlayer.handleCollision pushCexWall).1.shape.x = pushCexPlayer.shape.x + 10 := by
  have hI : findIntersection pushCexPlayer.shape pushCexWall = some ⟨5, 0, 10, 100⟩ := by
    norm_num [pushCexPlayer, pushCexWall, findIntersection]
  have hx : (pushCexPlayer.handleCollision pushCexWall).1.shape.x = -10 := by
    rw [handleCollision_some_hit hI (by norm_num [pushCexPlayer]) (by norm_num [pushCexPlayer])]
    rw [applyPush_x_of_lt _ _ (by norm_num : (⟨5, 0, 10, 100⟩ : Rect).w < (⟨5, 0, 10, 100⟩ : Rect).h)]
    norm_num [pushCexPlayer, pushCexWall]
  refine ⟨hI, by norm_num, by norm_num [pushCexPlayer, pushCexWall], ?_, ?_⟩
  · rw [hx]; norm_num [pushCexPlayer]
  · rw [hx]; norm_num [pushCexPlayer]

/-- Amended C4: on overlap the player is moved along the axis of minimum
overlap, by exactly the overlap extent, toward the side determined by
comparing the top-left corner positions of player and obstacle (negative
direction exactly when the player's corner coordinate is smaller); this
happens regardless of the invincibility state. -/
theorem pushDirection_min_overlap_axis :
    ∀ (p : Player) (w inter : Rect), findIntersection p.shape w = some inter →
      (inter.w < inter.h →
        (p.handleCollision w).1.shape.x =
          p.shape.x + (if p.shape.x < w.x then -inter.w else inter.w) ∧
        (p.handleCollision w).1.shape.y = p.shape.y) ∧
      (¬ inter.w < inter.h →
        (p.handleCollision w).1.shape.y =
          p.shape.y + (if p.shape.y < w.y then -inter.h else inter.h) ∧
        (p.handleCollision w).1.shape.x = p.shape.x) := by
  intro p w inter hI
  have hs := handleCollision_shape p w
  rw [hI] at hs
  dsimp only at hs
  constructor
  · intro hlt
    rw [show (p.handleCollision w).1.shape.x = (applyPush p inter w).shape.x from by rw [hs],
      show (p.handleCollision w).1.shape.y = (applyPush p inter w).shape.y from by rw [hs]]
    exact ⟨applyPush_x_of_lt p w hlt, applyPush_y_of_lt p w hlt⟩
  · intro hge
    rw [show (p.handleCollision w).1.shape.x = (applyPush p inter w).shape.x from by rw [hs],
      show (p.handleCollision w).1.shape.y = (applyPush p inter w).shape.y from by rw [hs]]
    exact ⟨applyPush_y_of_ge p w hge, applyPush_x_of_ge p w hge⟩

/-- Witness for the amended C4: the probe player overlapping the obstacle
on its right is pushed left by exactly the overlap width. -/
theorem pushDirection_min_overlap_axis_witness :
    (probeP.handleCollision probeWall).1.shape.x =
      probeP.shape.x + (if probeP.shape.x < probeWall.x then -(10 : ℚ) else 10) ∧
    (probeP.handleCollision probeWall).1.shape.y = probeP.shape.y := by
  have hI : findIntersection probeP.shape probeWall = some ⟨30, 0, 10, 40⟩ := by
    norm_num [probeP, probeWall, findIntersection]
  exact (pushDirection_min_overlap_axis probeP probeWall ⟨30, 0, 10, 40⟩ hI).1 (by norm_num)

/-- C5 (code bug): a damage wall is not a passthrough hazard in the code.
In the damage-wall phase, a hit is routed into handleCollision, whose
push-out block runs unconditionally: the overlapping player (right edge
10 px inside the wall) is expelled to x = -10 and no longer overlaps the
damage wall afterwards, exactly as with a blocking wall, while the damage
is also applied.  This contradicts the documented passthrough behaviour. -/
theorem damageWall_push_out_bug :
    (damagePhase dwP [dwD]).1.shape.x = -10 ∧
    findIntersection (damagePhase dwP [dwD]).1.shape dwD.shape = none ∧
    (damagePhase dwP [dwD]).1.lives = dwP.lives - 1 := by
  have hI : findIntersection dwD.shape dwP.shape = some ⟨30, 0, 10, 40⟩ := by
    norm_num [dwD, dwP, findIntersection]
  have hc : dwD.checkCollision dwP.shape = ({ dwD with hasHit := true }, true) :=
    damageWall_checkCollision_some_fresh hI rfl
  have hstep : (damagePhase dwP [dwD]).1 = (dwP.handleCollision dwD.shape).1 := by
    simp only [damagePhase, hc]
    simp
  rw [hstep]
  have hI2 : findIntersection dwP.shape dwD.shape = some ⟨30, 0, 10, 40⟩ := by
    norm_num [dwD, dwP, findIntersection]
  rw [handleCollision_some_hit hI2 (by norm_num [dwP]) (by norm_num [dwP])]
  refine ⟨?_, ?_, ?_⟩
  · rw [applyPush_x_of_lt _ _
      (by norm_num : (⟨30, 0, 10, 40⟩ : Rect).w < (⟨30, 0, 10, 40⟩ : Rect).h)]
    norm_num [dwP, dwD]
  · norm_num [applyPush, dwP, dwD, findIntersection]
  · rw [applyPush_lives]

/-- Claim C6: resetHitFlag clears the hit flag regardless of its prior
value, so every damage wall handed to the damage phase (the frame maps
resetHitFlag over the pool first) starts the phase with a false flag; and
once a checkCollision call has reported a hit, the flag is set and any
further checkCollision before the next reset reports no hit, so each
damage wall produces at most one damage event per frame. -/
theorem damageWall_once_per_frame :
    (∀ d : DamageWall, (d.resetHitFlag).hasHit = false) ∧
    (∀ (dws : List DamageWall) (d : DamageWall),
      d ∈ dws.map DamageWall.resetHitFlag → d.hasHit = false) ∧
    (∀ (d : DamageWall) (r : Rect), (d.checkCollision r).2 = true →
      d.hasHit = false ∧ (d.checkCollision r).1.hasHit = true) ∧
    (∀ (d : DamageWall) (r r2 : Rect), (d.checkCollision r).2 = true →
      (((d.checkCollision r).1).checkCollision r2).2 = false) := by
  refine ⟨fun d => rfl, ?_, fun d r h => damageWall_hit_of_true h,
    fun d r r2 h => damageWall_no_second_hit h⟩
  intro dws d hm
  rcases List.mem_map.mp hm with ⟨d0, -, rfl⟩
  rfl

/-- Witness for C6: a fresh damage wall overlapping the player reports one
hit, and a second check in the same frame reports none. -/
theorem damageWall_once_per_frame_witness :
    (dwD.checkCollision dwP.shape).2 = true ∧
    (((dwD.checkCollision dwP.shape).1).checkCollision dwP.shape).2 = false := by
  have hI : findIntersection dwD.shape dwP.shape = some ⟨30, 0, 10, 40⟩ := by
    norm_num [dwD, dwP, findIntersection]
  have hc : (dwD.checkCollision dwP.shape).2 = true := by
    rw [damageWall_checkCollision_some_fresh hI rfl]
  exact ⟨hc, damageWall_once_per_frame.2.2.2 dwD dwP.shape dwP.shape hc⟩

/-- Claim C7: a checkCollision call that reports a hit leaves the collected
flag set, and the flag is monotonic (never cleared by later checks);
collection grants exactly +1 life with no upper cap; a collected power-up
is never an element of the purged list, and in every reachable state every
power-up still in the active list is uncollected, so a bonus is granted at
most once per power-up. -/
theorem powerUp_single_collection :
    (∀ (pu : PowerUp) (r : Rect), (pu.checkCollision r).2 = true →
      (pu.checkCollision r).1.isCollected = true) ∧
    (∀ (pu : PowerUp) (r : Rect), pu.isCollected = true →
      (pu.checkCollision r).1.isCollected = true) ∧
    (∀ p : Player, (p.addLife).getLives = p.getLives + 1) ∧
    (∀ (pus : List PowerUp) (pu : PowerUp), pu.isCollected = true →
      pu ∉ purgeCollected pus) ∧
    (∀ s : GameState, Reachable s → ∀ pu ∈ s.powerUps, pu.isCollected = false) :=
  ⟨fun pu r h => powerUp_collected_of_true h,
   fun pu r h => powerUp_collected_mono h,
   fun p => rfl,
   fun pus pu h => purgeCollected_not_mem h,
   fun s hs => (reachable_gameInv hs).2.2.2.1⟩

/-- Witness for C7: a power-up overlapping the player is marked collected
by its check, and an already-collected power-up does not survive a purge
of a list containing it. -/
theorem powerUp_single_collection_witness :
    (witPU.checkCollision dwP.shape).1.isCollected = true ∧
    witCollected ∉ purgeCollected [witCollected] := by
  have hI : findIntersection witPU.shape dwP.shape = some ⟨30, 0, 10, 25⟩ := by
    norm_num [witPU, PowerUp.create, dwP, findIntersection]
  refine ⟨powerUp_single_collection.1 witPU dwP.shape ?_,
    powerUp_single_collection.2.2.2.1 [witCollected] witCollected rfl⟩
  rw [powerUp_checkCollision_some hI]

/-- Claim C8: in every reachable state (in particular in every state
immediately after a frame's spawn checks) there are at most 3 active
power-ups and at most 4 active damage walls; and a spawn check changes the
pool only when the advanced timer has reached its interval (3.0 s resp.
2.5 s) and the pool is strictly below its cap, in which case it adds
exactly one entity. -/
theorem population_caps :
    (∀ s : GameState, Reachable s →
      s.powerUps.length ≤ 3 ∧ s.damageWalls.length ≤ 4) ∧
    (∀ (t dt : ℚ) (pus : List PowerUp) (pos : ℚ × ℚ),
      (powerUpSpawnCheck t dt pus pos).1.length ≠ pus.length →
      POWER_UP_SPAWN_INTERVAL ≤ t + dt ∧ pus.length < 3 ∧
      (powerUpSpawnCheck t dt pus pos).1.length = pus.length + 1) ∧
    (∀ (t dt : ℚ) (dws : List DamageWall) (pos : ℚ × ℚ) (side : ℚ),
      (damageWallSpawnCheck t dt dws pos side).1.length ≠ dws.length →
      DAMAGE_WALL_SPAWN_INTERVAL ≤ t + dt ∧ dws.length < 4 ∧
      (damageWallSpawnCheck t dt dws pos side).1.length = dws.length + 1) := by
  refine ⟨fun s hs => ⟨(reachable_gameInv hs).2.1, (reachable_gameInv hs).2.2.1⟩, ?_, ?_⟩
  · intro t dt pus pos h
    unfold powerUpSpawnCheck at h ⊢
    by_cases h1 : POWER_UP_SPAWN_INTERVAL ≤ t + dt
    · rw [if_pos h1] at h ⊢
      by_cases h2 : pus.length < 3
      · rw [if_pos h2] at h ⊢
        exact ⟨h1, h2, by simp⟩
      · rw [if_neg h2] at h
        exact absurd rfl h
    · rw [if_neg h1] at h
      exact absurd rfl h
  · intro t dt dws pos side h
    unfold damageWallSpawnCheck at h ⊢
    by_cases h1 : DAMAGE_WALL_SPAWN_INTERVAL ≤ t + dt
    · rw [if_pos h1] at h ⊢
      by_cases h2 : dws.length < 4
      · rw [if_pos h2] at h ⊢
        exact ⟨h1, h2, by simp⟩
      · rw [if_neg h2] at h
        exact absurd rfl h
    · rw [if_neg h1] at h
      exact absurd rfl h

/-- Witness for C8: the caps hold in the initial state, and a spawn check
on an empty pool with an expired timer adds exactly one power-up. -/
theorem population_caps_witness :
    ((GameState.init).powerUps.length ≤ 3 ∧ (GameState.init).damageWalls.length ≤ 4) ∧
    (POWER_UP_SPAWN_INTERVAL ≤ 3 + 0 ∧ ([] : List PowerUp).length < 3 ∧
      (powerUpSpawnCheck 3 0 [] (0, 0)).1.length = ([] : List PowerUp).length + 1) := by
  refine ⟨population_caps.1 GameState.init Reachable.init,
    population_caps.2.1 3 0 [] (0, 0) ?_⟩
  norm_num [powerUpSpawnCheck, POWER_UP_SPAWN_INTERVAL]

/-- Claim C9: restart replaces the player with a fresh instance (lives 0,
alive, zero invincibility, 40x40 at (50, 50)), empties both spawn pools,
resets both spawn timers to 0 and changes nothing else; in particular the
wall list — in every reachable state exactly the four fixed rectangles of
createWalls — is identical before and after. -/
theorem restart_effect :
    (∀ s : GameState,
      (restartGame s).walls = s.walls ∧
      (restartGame s).player = Player.create (40, 40) (50, 50) ∧
      (restartGame s).powerUps = [] ∧
      (restartGame s).damageWalls = [] ∧
      (restartGame s).powerUpSpawnTimer = 0 ∧
      (restartGame s).damageWallSpawnTimer = 0) ∧
    ((Player.create (40, 40) (50, 50)).getLives = 0 ∧
      (Player.create (40, 40) (50, 50)).isAlive = true ∧
      (Player.create (40, 40) (50, 50)).invincibleTimer = 0 ∧
      (Player.create (40, 40) (50, 50)).shape = ⟨50, 50, 40, 40⟩) ∧
    (∀ s : GameState, Reachable s → s.walls = createWalls ∧ createWalls.length = 4) :=
  ⟨fun s => ⟨rfl, rfl, rfl, rfl, rfl, rfl⟩, ⟨rfl, rfl, rfl, rfl⟩,
   fun s hs => ⟨(reachable_gameInv hs).2.2.2.2, rfl⟩⟩

/-- Witness for C9: instantiated at the initial state. -/
theorem restart_effect_witness :
    (restartGame GameState.init).walls = (GameState.init).walls ∧
    (GameState.init).walls = createWalls :=
  ⟨(restart_effect.1 GameState.init).1,
   (restart_effect.2.2 GameState.init Reachable.init).1⟩
